import Mathlib

/-!
Verification of the inscripflow probe engine and scheduler.

The JavaScript sources are shallowly embedded:
* `worker.js` (`src/unnamed/part_003`, identical to
  `forum-sniper/server/src/worker.js` plus the FlareSolverr step):
  `analyzeRobotsTxt`, `detectInvitationCodes` and the decision pipeline of
  `checkTarget` become pure Lean functions.  Browser observations (page
  title, markup, input fields, frames, the AI planner reply, ...) are
  supplied through a `ProbeEnv` record, and every page interaction the
  code performs (navigation, form fill, submit click, AI call) is recorded
  in an explicit `Step` trace.
* `index.js` (`src/unnamed/part_001`, second, database-backed variant whose
  line numbers the claims cite): the bounded log (`log`), the classification
  done by `runTargetCheck`, the scheduler batch of `startScheduler` with its
  stale-`CHECKING` recovery, the manual check endpoint, and the inter-batch
  delay computation.

JavaScript regular expressions used by the sources are embedded through a
small executable matcher (`Tok`, `seqAlts`, `reFindAux`, `reExecAll`) that
reproduces the backtracking priority of the JS engine for the shapes of
patterns that actually occur (literals, character classes, greedy and lazy
character-class quantifiers, one capture group).
-/

namespace Inscripflow

/-! ### String helpers (JS `String.prototype.includes`, case folding) -/

/-- Prefix test on character lists, optionally case-insensitive
(JS regexes with the `i` flag canonicalize case; `Char.toLower` folds
ASCII, which covers the patterns in the sources). -/
def litMatch (ci : Bool) : List Char → List Char → Bool
  | [], _ => true
  | _ :: _, [] => false
  | a :: as, b :: bs =>
    (if ci then a.toLower == b.toLower else a == b) && litMatch ci as bs

/-- Substring test on character lists (case-sensitive), the embedding of
JS `hay.includes(sub)`. -/
def hasSubList (sub : List Char) : List Char → Bool
  | [] => litMatch false sub []
  | c :: rest => litMatch false sub (c :: rest) || hasSubList sub rest

/-- JS `hay.includes(sub)` on strings. -/
def hasSub (hay sub : String) : Bool :=
  hasSubList sub.toList hay.toList

/-- Case-insensitive substring test, the embedding of a JS regex
`/lit/i.test(hay)` for a plain literal `lit`. -/
def hasSubCI (hay sub : String) : Bool :=
  hasSub hay.toLower sub.toLower

/-- `/a|b|.../i.test(hay)` for an alternation of plain literals. -/
def containsAnyCI (hay : String) (subs : List String) : Bool :=
  subs.any (fun s => hasSubCI hay s)

/-! ### A small executable matcher for the sources' regular expressions -/

/-- One quantified atom of a JS regex, enough for the patterns occurring in
`worker.js`.  The single capture group of each pattern is `capMin`
(`(cls+ )` or `(cls{lo,})`) or `capRep` (`(cls{lo,hi})`), both greedy. -/
inductive Tok where
  /-- literal string, `ci` = case-insensitive (`i` flag) -/
  | lit (ci : Bool) (s : String)
  /-- one character of a class -/
  | cls (p : Char → Bool)
  /-- `[..]?` greedy -/
  | optCls (p : Char → Bool)
  /-- `(?:lit)?` greedy -/
  | optLit (ci : Bool) (s : String)
  /-- `[..]*` greedy -/
  | starG (p : Char → Bool)
  /-- `[..]*?` lazy (used for `.*?`) -/
  | starL (p : Char → Bool)
  /-- capture `([..]{lo,})` greedy -/
  | capMin (p : Char → Bool) (lo : Nat)
  /-- capture `([..]{lo,hi})` greedy -/
  | capRep (p : Char → Bool) (lo hi : Nat)

/-- Length of the maximal run of characters satisfying `p`. -/
def takeRun (p : Char → Bool) (s : List Char) : Nat :=
  (s.takeWhile p).length

/-- All ways one token can consume a prefix of `s`, in the priority order
of the JS backtracking engine (greedy: longest first; lazy: shortest
first).  Each alternative is (capture, remaining input). -/
def tokAlts : Tok → List Char → List (Option (List Char) × List Char)
  | .lit ci l, s =>
    if litMatch ci l.toList s then [(none, s.drop l.length)] else []
  | .cls p, s =>
    match s with
    | c :: rest => if p c then [(none, rest)] else []
    | [] => []
  | .optCls p, s =>
    match s with
    | c :: rest => if p c then [(none, rest), (none, c :: rest)] else [(none, c :: rest)]
    | [] => [(none, [])]
  | .optLit ci l, s =>
    if litMatch ci l.toList s then [(none, s.drop l.length), (none, s)] else [(none, s)]
  | .starG p, s =>
    let n := takeRun p s
    (List.range (n + 1)).map (fun i => (none, s.drop (n - i)))
  | .starL p, s =>
    let n := takeRun p s
    (List.range (n + 1)).map (fun i => (none, s.drop i))
  | .capMin p lo, s =>
    let n := takeRun p s
    if n < lo then []
    else (List.range (n + 1 - lo)).map (fun i => (some (s.take (n - i)), s.drop (n - i)))
  | .capRep p lo hi, s =>
    let n := min (takeRun p s) hi
    if n < lo then []
    else (List.range (n + 1 - lo)).map (fun i => (some (s.take (n - i)), s.drop (n - i)))

/-- All matches of a token sequence anchored at the start of `s`, in
backtracking priority order; the head, when present, is the match the JS
engine produces. -/
def seqAlts : List Tok → List Char → List (Option (List Char) × List Char)
  | [], s => [(none, s)]
  | t :: ts, s =>
    (tokAlts t s).flatMap (fun pr =>
      (seqAlts ts pr.2).map (fun q => (pr.1 <|> q.1, q.2)))

/-- Leftmost match: (capture, start index, end index).  Mirrors the JS
engine trying successive start positions. -/
def reFindAux (toks : List Tok) : List Char → Nat → Option (Option (List Char) × Nat × Nat)
  | s, pos =>
    match (seqAlts toks s).head? with
    | some (cap, rest) => some (cap, pos, pos + (s.length - rest.length))
    | none =>
      match s with
      | [] => none
      | _ :: t => reFindAux toks t (pos + 1)

/-- `/pattern/.test(s)`. -/
def reTest (toks : List Tok) (s : String) : Bool :=
  (reFindAux toks s.toList 0).isSome

/-- `s.match(pattern)` restricted to the first capture group `match[1]`
(`none` when there is no match; an absent group is rendered as `""`,
which the callers treat as falsy exactly like JS `undefined`). -/
def reFirstCapture (toks : List Tok) (s : String) : Option String :=
  (reFindAux toks s.toList 0).map (fun r => String.mk (r.1.getD []))

/-- The `while ((match = pattern.exec(html)) !== null)` loop of a global
regex: successive first-group captures, resuming after each match end
(with the JS empty-match advance guard). -/
def reExecAllAux (toks : List Tok) : Nat → List Char → List String
  | 0, _ => []
  | fuel + 1, s =>
    match reFindAux toks s 0 with
    | none => []
    | some (cap, st, en) =>
      let nxt := if en == st then st + 1 else en
      String.mk (cap.getD []) :: reExecAllAux toks fuel (s.drop nxt)

/-- All first-group captures of a global pattern over `s`. -/
def reExecAll (toks : List Tok) (s : String) : List String :=
  reExecAllAux toks (s.length + 1) s.toList

/-! ### Character classes of the `worker.js` regexes -/

/-- `[?&]` -/
def qAmpC (c : Char) : Bool := c == '?' || c == '&'

/-- `[a-zA-Z0-9_-]` -/
def wordC (c : Char) : Bool := c.isAlphanum || c == '_' || c == '-'

/-- `[_-]` -/
def underDashC (c : Char) : Bool := c == '_' || c == '-'

/-- `["']` -/
def quoteC (c : Char) : Bool := c == '"' || c == Char.ofNat 39

/-- `[^"']` -/
def notQuoteC (c : Char) : Bool := !(c == '"' || c == Char.ofNat 39)

/-- `.` without the `s` flag: any character but a line terminator. -/
def dotC (c : Char) : Bool :=
  !(c == '\n' || c == '\r' || c == Char.ofNat 8232 || c == Char.ofNat 8233)

/-- `\s` (the whitespace characters relevant here). -/
def wsC (c : Char) : Bool :=
  c == ' ' || c == '\t' || c == '\n' || c == '\r' ||
  c == Char.ofNat 11 || c == Char.ofNat 12 || c == Char.ofNat 160

/-- `[A-Z0-9]` under the `i` flag: any ASCII letter or digit. -/
def upDigC (c : Char) : Bool := c.isAlphanum

/-- `["'>:]` -/
def qmC (c : Char) : Bool :=
  c == '"' || c == Char.ofNat 39 || c == '>' || c == ':'

/-- `['']` of the source (both characters are the ASCII apostrophe). -/
def aposC (c : Char) : Bool := c == Char.ofNat 39

/-! ### `worker.js`: robots.txt analysis and invitation-code extraction -/

/-- Hints and truncated raw text derived from a robots.txt body. -/
structure RobotsInfo where
  forumHints : List String
  raw : String
deriving DecidableEq, Repr

/-- `analyzeRobotsTxt` of `worker.js`. -/
def analyzeRobotsTxt (robotsText : String) : RobotsInfo :=
  let lines := robotsText.toLower
  let hints :=
    (if hasSub lines "phpbb" then ["phpBB"] else []) ++
    (if hasSub lines "xenforo" then ["XenForo"] else []) ++
    (if hasSub lines "discourse" then ["Discourse"] else []) ++
    (if hasSub lines "invision" || hasSub lines "ips4" then ["Invision"] else []) ++
    (if hasSub lines "vbulletin" then ["vBulletin"] else []) ++
    (if hasSub lines "mybb" then ["MyBB"] else []) ++
    (if hasSub lines "wp-content" then ["WordPress"] else []) ++
    (if hasSub lines "register.php" || hasSub lines "signup" then ["Has Registration"] else [])
  { forumHints := hints, raw := robotsText.take 500 }

/-- One extracted invitation code with its source tag. -/
structure InviteCode where
  source : String
  code : String
deriving DecidableEq, Repr

/-- `/[?&]invite[_-]?code=([a-zA-Z0-9_-]+)/i` -/
def urlPat1 : List Tok :=
  [.cls qAmpC, .lit true "invite", .optCls underDashC, .lit true "code",
   .lit false "=", .capMin wordC 1]

/-- `/[?&]ref(?:erral)?=([a-zA-Z0-9_-]+)/i` -/
def urlPat2 : List Tok :=
  [.cls qAmpC, .lit true "ref", .optLit true "erral", .lit false "=", .capMin wordC 1]

/-- `/[?&]code=([a-zA-Z0-9_-]+)/i` -/
def urlPat3 : List Tok :=
  [.cls qAmpC, .lit true "code", .lit false "=", .capMin wordC 1]

/-- `/\/invite\/([a-zA-Z0-9_-]+)/i` -/
def urlPat4 : List Tok :=
  [.lit false "/", .lit true "invite", .lit false "/", .capMin wordC 1]

/-- `/\/register\/([a-zA-Z0-9_-]{6,})/i` -/
def urlPat5 : List Tok :=
  [.lit false "/", .lit true "register", .lit false "/", .capMin wordC 6]

/-- The `urlPatterns` array, in source order. -/
def urlPatterns : List (List Tok) := [urlPat1, urlPat2, urlPat3, urlPat4, urlPat5]

/-- `/href=["'][^"']*invite[_-]?code=([a-zA-Z0-9_-]+)[^"']*/gi` -/
def htmlPat1 : List Tok :=
  [.lit true "href=", .cls quoteC, .starG notQuoteC, .lit true "invite",
   .optCls underDashC, .lit true "code", .lit false "=", .capMin wordC 1,
   .starG notQuoteC]

/-- `/href=["'][^"']*\/invite\/([a-zA-Z0-9_-]+)[^"']*/gi` -/
def htmlPat2 : List Tok :=
  [.lit true "href=", .cls quoteC, .starG notQuoteC, .lit false "/",
   .lit true "invite", .lit false "/", .capMin wordC 1, .starG notQuoteC]

/-- `/invitation.*?code.*?["'>:]\s*([A-Z0-9]{4,20})/gi` -/
def htmlPat3 : List Tok :=
  [.lit true "invitation", .starL dotC, .lit true "code", .starL dotC,
   .cls qmC, .starG wsC, .capRep upDigC 4 20]

/-- `/code\s*d['']?invitation.*?["'>:]\s*([A-Z0-9]{4,20})/gi` -/
def htmlPat4 : List Tok :=
  [.lit true "code", .starG wsC, .lit true "d", .optCls aposC,
   .lit true "invitation", .starL dotC, .cls qmC, .starG wsC,
   .capRep upDigC 4 20]

/-- The `htmlPatterns` array, in source order. -/
def htmlPatterns : List (List Tok) := [htmlPat1, htmlPat2, htmlPat3, htmlPat4]

/-- The URL scan of `detectInvitationCodes`: for each pattern, a match
pushes `(source: url, code: match[1])` unconditionally. -/
def urlPhase (url : String) : List InviteCode :=
  urlPatterns.foldl
    (fun acc pat =>
      match reFirstCapture pat url with
      | some c => acc ++ [{ source := "url", code := c }]
      | none => acc)
    []

/-- The HTML exec-loop of `detectInvitationCodes` for one pattern: a
capture is pushed as `(source: page, ...)` only when it is truthy and no
already-collected entry carries the same code. -/
def pagePhase (caps : List String) (acc : List InviteCode) : List InviteCode :=
  caps.foldl
    (fun acc c =>
      if c.isEmpty then acc
      else if acc.any (fun e => e.code == c) then acc
      else acc ++ [{ source := "page", code := c }])
    acc

/-- `detectInvitationCodes` of `worker.js`. -/
def detectInvitationCodes (html url : String) : List InviteCode :=
  htmlPatterns.foldl (fun acc pat => pagePhase (reExecAll pat html) acc)
    (urlPhase url)

/-! ### `worker.js`: the probe pipeline of `checkTarget`

Browser-side observations are supplied through `Page` and `ProbeEnv`;
`forumFingerprints.js` and `aiService.js` are outside the sources, so the
fingerprint lookup result and the AI plan are oracle inputs of the
environment.  Every page interaction is recorded as a `Step`. -/

/-- An `<input>` element as seen by the locators: its `type`, `name` and
`placeholder` attributes (absent attributes are `""`). -/
structure InputEl where
  itype : String
  name : String
  placeholder : String
deriving DecidableEq, Repr

/-- The observable state of the page the probe is currently on. -/
structure Page where
  inputs : List InputEl
  /-- `page.locator('textarea').count()` -/
  textareas : Nat
  /-- inner texts of the `<label>` elements -/
  labels : List String
  /-- inner texts of the `<a>` elements -/
  links : List String
  /-- `page.content()` -/
  html : String
  /-- `page.url()` -/
  url : String
  /-- `page.innerText('body')` -/
  body : String
  /-- URLs of the page's frames -/
  frames : List String
  /-- submit button: `none` = no match, `some d` = first match with
  disabled flag `d` -/
  submitBtn : Option Bool
deriving DecidableEq, Repr

/-- The settings read by `getSettings()` (only the field the worker uses). -/
structure Settings where
  flaresolverr_url : String
deriving DecidableEq, Repr

/-- JS truthiness of `settings.flaresolverr_url`. -/
def flareConfigured (s : Settings) : Bool := !s.flaresolverr_url.isEmpty

/-- The credentials of the probed target. -/
structure TargetCreds where
  url : String
  pseudo : String
  email : String
  password : String
deriving DecidableEq, Repr

/-- Result of `detectForumType` (from `forumFingerprints.js`, outside the
sources; treated as an oracle). -/
structure ForumInfo where
  name : String
  registrationPaths : List String
deriving DecidableEq, Repr

/-- Outcome of one `page.goto(regUrl)` in the registration-path loops:
`ok` is `response && response.ok()`, `html` the page content there.
A missing entry models a navigation that threw. -/
structure PathResult where
  ok : Bool
  html : String
deriving DecidableEq, Repr

/-- One AI fill action. -/
structure AIAction where
  selector : String
  value : String
  action : String
deriving DecidableEq, Repr

/-- The AI planner reply; `none` fields model absent/null JS fields. -/
structure AIPlan where
  fill_actions : Option (List AIAction)
  submit_selector : Option String
deriving DecidableEq

/-- All observations the effectful code would gather during one probe. -/
structure ProbeEnv where
  /-- robots.txt body when the fetch succeeded -/
  robotsTxt : Option String
  /-- `page.title()` after navigation -/
  navTitle : String
  /-- `page.content()` after navigation -/
  navContent : String
  /-- `detectForumType(initialHtml)` -/
  forumMatch : Option ForumInfo
  /-- `getCommonRegistrationPaths()` -/
  commonPaths : List String
  /-- outcomes of the attempted registration paths, by position -/
  pathResults : List PathResult
  /-- the page after the registration-path loops -/
  pageAfterPaths : Page
  /-- the page after clicking a found register link -/
  registerLinkPage : Page
  /-- body text after the heuristic submit click -/
  postSubmitBody : String
  /-- body text after the AI submit click -/
  postAiSubmitBody : String
  /-- `getAIFormFillData(...)` -/
  aiPlan : Option AIPlan
  /-- whether `page.locator(sel).count() > 0` for an AI selector -/
  selectorHit : String → Bool

/-- One recorded page interaction of the probe. -/
inductive Step where
  | fetchRobots
  | bypassCall
  | navigate (url : String)
  | fingerprint
  | gotoPath (path : String)
  | clickLink
  | extractCodes
  | fill (field value : String)
  | checkFrames
  | clickSubmit
  | aiCall
  | aiFill (sel : String)
  | aiCheckBox (sel : String)
  | aiClickSubmit (sel : String)
deriving DecidableEq, Repr

/-- Steps that fill a form field or fire a submit. -/
def isFillOrSubmit : Step → Bool
  | .fill _ _ => true
  | .clickSubmit => true
  | .aiFill _ => true
  | .aiCheckBox _ => true
  | .aiClickSubmit _ => true
  | _ => false

/-- The result object of `checkTarget`.  `Option Bool` fields are the JS
fields that some return sites omit (`none` = absent, read as `undefined`). -/
structure CheckResult where
  success : Bool
  /-- the JS field `open` (keyword in Lean) -/
  openFlag : Option Bool
  needsInvite : Option Bool
  captcha : Option Bool
  forumType : String
  robotsInfo : Option RobotsInfo
  invitationCodes : List InviteCode
deriving DecidableEq, Repr

/-- Build a result in the field order of the JS object literals. -/
def mkRes (success : Bool) (openFlag needsInvite captcha : Option Bool)
    (forumType : String) (robotsInfo : Option RobotsInfo)
    (invitationCodes : List InviteCode) : CheckResult :=
  { success, openFlag, needsInvite, captcha, forumType, robotsInfo,
    invitationCodes }

/-- A JS value as read off a result object. -/
inductive JsVal where
  | undefV
  | nullV
  | bool (b : Bool)
  | str (s : String)
  | robots (r : RobotsInfo)
  | codes (l : List InviteCode)
deriving DecidableEq, Repr

/-- JS property read on a result object: present fields give their value,
any other property name reads as `undefined`. -/
def getField (r : CheckResult) (k : String) : JsVal :=
  let optV : Option Bool → JsVal := fun o =>
    match o with
    | some b => .bool b
    | none => .undefV
  if k == "success" then .bool r.success
  else if k == "open" then optV r.openFlag
  else if k == "needsInvite" then optV r.needsInvite
  else if k == "captcha" then optV r.captcha
  else if k == "forumType" then .str r.forumType
  else if k == "robotsInfo" then
    match r.robotsInfo with
    | some ri => .robots ri
    | none => .nullV
  else if k == "invitationCodes" then .codes r.invitationCodes
  else .undefV

/-! #### Predicates of the pipeline, translated from the worker regexes -/

/-- The post-navigation Cloudflare check:
`pageTitle.includes('Just a moment') ||
 pageContent.includes('challenge-platform') ||
 pageContent.includes('cf-turnstile')`. -/
def challengeDetected (env : ProbeEnv) : Bool :=
  hasSub env.navTitle "Just a moment" ||
  hasSub env.navContent "challenge-platform" ||
  hasSub env.navContent "cf-turnstile"

/-- `/password|email|username|inscription|register/i.test(html)` of the
registration-path loops. -/
def regKeywordTest (html : String) : Bool :=
  containsAnyCI html ["password", "email", "username", "inscription", "register"]

/-- The register-link text regex
`/register|sign up|inscription|créer.*compte|join/i`. -/
def linkRegexTest (t : String) : Bool :=
  hasSubCI t "register" ||
  reTest [.lit true "sign", .starG wsC, .lit true "up"] t ||
  hasSubCI t "inscription" ||
  reTest [.lit true "créer", .starG dotC, .lit true "compte"] t ||
  hasSubCI t "join"

/-- `bodyText.match(/registration.*closed/i) ||
bodyText.match(/inscriptions.*fermées/i)`. -/
def closedPhrase (body : String) : Bool :=
  reTest [.lit true "registration", .starG dotC, .lit true "closed"] body ||
  reTest [.lit true "inscriptions", .starG dotC, .lit true "fermées"] body

/-- Post-submit success vocabulary of the heuristic path
(`/welcome|bienvenue|success|activate/i`). -/
def successPhrase (body : String) : Bool :=
  containsAnyCI body ["welcome", "bienvenue", "success", "activate"]

/-- Post-submit success vocabulary of the AI path
(`/welcome|bienvenue|success/i`). -/
def successPhraseAI (body : String) : Bool :=
  containsAnyCI body ["welcome", "bienvenue", "success"]

/-- `page.locator('input[type="password"]').count()`. -/
def countPassword (p : Page) : Nat :=
  (p.inputs.filter (fun i => i.itype == "password")).length

/-- `page.locator('input[type="email"]').count()` (the link-discovery
guard uses only the type selector). -/
def countTypeEmail (p : Page) : Nat :=
  (p.inputs.filter (fun i => i.itype == "email")).length

/-- The email selector list
`input[type="email"], input[name*="mail"], input[placeholder*="mail"],
input[placeholder*="courriel"]` (CSS `*=` is case-sensitive). -/
def emailSel (i : InputEl) : Bool :=
  i.itype == "email" || hasSub i.name "mail" ||
  hasSub i.placeholder "mail" || hasSub i.placeholder "courriel"

/-- Count of the email selector list. -/
def countEmail (p : Page) : Nat := (p.inputs.filter emailSel).length

/-- The invite-input xpath filter: name contains `invite` or `code`, or
placeholder contains `invitation`, `invite` or `code`. -/
def inviteInputSel (i : InputEl) : Bool :=
  hasSub i.name "invite" || hasSub i.name "code" ||
  hasSub i.placeholder "invitation" || hasSub i.placeholder "invite" ||
  hasSub i.placeholder "code"

/-- `inviteInputs` count. -/
def countInviteInputs (p : Page) : Nat :=
  (p.inputs.filter inviteInputSel).length

/-- `page.locator('label', { hasText: /invitation|invite|code/i }).count()`. -/
def countInviteLabels (p : Page) : Nat :=
  (p.labels.filter (fun t => containsAnyCI t ["invitation", "invite", "code"])).length

/-- `needsInvite = inviteInputs > 0 || labelInvite > 0`. -/
def needsInviteOf (p : Page) : Bool :=
  countInviteInputs p > 0 || countInviteLabels p > 0

/-- `hasAnyForm = (emailInputs > 0 && passwordInputs > 0) || needsInvite`. -/
def hasAnyFormOf (p : Page) : Bool :=
  (countEmail p > 0 && countPassword p > 0) || needsInviteOf p

/-- The username locator of the heuristic fill. -/
def hasUsernameInput (p : Page) : Bool :=
  p.inputs.any (fun i =>
    hasSub i.name "user" || hasSub i.name "pseudo" || hasSub i.name "login" ||
    hasSub i.placeholder "utilisateur" || hasSub i.placeholder "pseudo" ||
    hasSub i.placeholder "username")

/-- First link whose text matches the register-link regex. -/
def findRegisterLink (p : Page) : Option String :=
  p.links.find? linkRegexTest

/-- `iframes.some(f => f.url().includes('recaptcha') || f.url().includes('cloudflare'))`. -/
def captchaPresent (p : Page) : Bool :=
  p.frames.any (fun u => hasSub u "recaptcha" || hasSub u "cloudflare")

/-! #### The pipeline itself -/

/-- Steps before the challenge check: robots fetch, optional bypass call,
navigation. -/
def preNavSteps (s : Settings) (t : TargetCreds) : List Step :=
  [Step.fetchRobots] ++
  (if flareConfigured s then [Step.bypassCall] else []) ++
  [Step.navigate t.url]

/-- The registration-path loop: navigate each path in order, stopping at
the first OK response whose markup has registration keywords. -/
def tryPaths : List String → List PathResult → List Step
  | [], _ => []
  | p :: ps, [] => Step.gotoPath p :: tryPaths ps []
  | p :: ps, r :: rs =>
    Step.gotoPath p ::
      (if r.ok && regKeywordTest r.html then [] else tryPaths ps rs)

/-- The link-discovery fallback: when the page after the path loops lacks
a password input or a `type="email"` input, click the first register
link if one exists. -/
def linkDiscovery (env : ProbeEnv) : Page × List Step :=
  let p0 := env.pageAfterPaths
  if countPassword p0 == 0 || countTypeEmail p0 == 0 then
    match findRegisterLink p0 with
    | some _ => (env.registerLinkPage, [Step.clickLink])
    | none => (p0, [])
  else (p0, [])

/-- The fill interactions of the heuristic path. -/
def fillSteps (t : TargetCreds) (page : Page) : List Step :=
  [Step.fill "email" t.email] ++
  (if hasUsernameInput page then [Step.fill "username" t.pseudo] else []) ++
  [Step.fill "password" t.password] ++
  (if 2 ≤ countPassword page then [Step.fill "passwordConfirm" t.password] else [])

/-- The heuristic fill path (password, email present, no textarea). -/
def heuristicPath (t : TargetCreds) (env : ProbeEnv) (ft : String)
    (ri : Option RobotsInfo) (codes : List InviteCode) (page : Page)
    (pre : List Step) : CheckResult × List Step :=
  let steps := pre ++ fillSteps t page ++ [Step.checkFrames]
  if captchaPresent page then
    (mkRes false (some true) none (some true) ft ri codes, steps)
  else
    match page.submitBtn with
    | none => (mkRes false (some true) none none ft ri codes, steps)
    | some true => (mkRes false (some true) (some true) none ft ri codes, steps)
    | some false =>
      if successPhrase env.postSubmitBody then
        (mkRes true none none none ft ri codes, steps ++ [Step.clickSubmit])
      else
        (mkRes false (some true) none none ft ri codes, steps ++ [Step.clickSubmit])

/-- Interactions of one AI action: applied only when the selector
matches; `fill` fills, `check` checks, other kinds are ignored. -/
def aiActSteps (env : ProbeEnv) (a : AIAction) : List Step :=
  if env.selectorHit a.selector then
    if a.action == "fill" then [Step.aiFill a.selector]
    else if a.action == "check" then [Step.aiCheckBox a.selector]
    else []
  else []

/-- The AI fallback path. -/
def aiPath (_t : TargetCreds) (env : ProbeEnv) (ft : String)
    (ri : Option RobotsInfo) (codes : List InviteCode)
    (pre : List Step) : CheckResult × List Step :=
  let steps := pre ++ [Step.aiCall]
  match env.aiPlan with
  | some plan =>
    match plan.fill_actions with
    | some acts =>
      let steps2 := steps ++ acts.flatMap (aiActSteps env)
      match plan.submit_selector with
      | some ss =>
        if ss.isEmpty then (mkRes false (some false) none none ft ri codes, steps2)
        else if successPhraseAI env.postAiSubmitBody then
          (mkRes true none none none ft ri codes, steps2 ++ [Step.aiClickSubmit ss])
        else
          (mkRes false (some false) none none ft ri codes, steps2 ++ [Step.aiClickSubmit ss])
      | none => (mkRes false (some false) none none ft ri codes, steps2)
    | none => (mkRes false (some false) none none ft ri codes, steps)
  | none => (mkRes false (some false) none none ft ri codes, steps)

/-- Lines 242-402 of the worker: invitation-code extraction, the closed
check guarded by `hasAnyForm`, the invite short-circuit, the heuristic
fill path, the AI fallback, and the final fallthrough return. -/
def classifyPage (t : TargetCreds) (env : ProbeEnv) (ft : String)
    (ri : Option RobotsInfo) (page : Page) (pre : List Step) :
    CheckResult × List Step :=
  let codes := detectInvitationCodes page.html page.url
  let pw := countPassword page
  let em := countEmail page
  let ta := page.textareas
  let steps := pre ++ [Step.extractCodes]
  if !hasAnyFormOf page && closedPhrase page.body then
    (mkRes false (some false) none none ft ri codes, steps)
  else if needsInviteOf page then
    (mkRes false (some true) (some true) none ft ri codes, steps)
  else if pw > 0 && em > 0 && ta == 0 then
    heuristicPath t env ft ri codes page steps
  else if pw == 0 || em == 0 || ta > 0 then
    aiPath t env ft ri codes steps
  else
    (mkRes false (some false) none none ft ri codes, steps)

/-- The full `checkTarget` decision pipeline: result plus interaction
trace. -/
def checkTarget (t : TargetCreds) (s : Settings) (env : ProbeEnv) :
    CheckResult × List Step :=
  let ri := env.robotsTxt.map analyzeRobotsTxt
  let pre := preNavSteps s t
  if challengeDetected env && !flareConfigured s then
    (mkRes false (some false) none none "Cloudflare" ri [], pre)
  else
    let ft :=
      match env.forumMatch with
      | some fi => fi.name
      | none => "Unknown"
    let fpSteps := Step.fingerprint ::
      (match env.forumMatch with
       | some fi => tryPaths fi.registrationPaths env.pathResults
       | none => tryPaths (env.commonPaths.take 5) env.pathResults)
    let pl := linkDiscovery env
    classifyPage t env ft ri pl.1 (pre ++ fpSteps ++ pl.2)

/-! ### `index.js` (database-backed variant): log, classification,
scheduler -/

/-- Wire-level target status. -/
inductive Status where
  | IDLE
  | CHECKING
  | OPEN
  | NEEDS_INVITE
  | REGISTERED
  | CLOSED
  | ERROR
deriving DecidableEq, Repr

/-- The log entry format `[time] message` of `log`. -/
def logEntryFmt (time msg : String) : String :=
  "[" ++ time ++ "] " ++ msg

/-- The bounded-log append of `log`:
`target.logs.unshift(logEntry); if (target.logs.length > 50) target.logs.pop();`
(`unshift` prepends, `pop` drops the last, i.e. oldest, entry). -/
def logPush (entry : String) (logs : List String) : List String :=
  let l := entry :: logs
  if l.length > 50 then l.dropLast else l

/-- A target as the server holds it (`lastCheckMs` is the epoch value of
`new Date(target.lastCheck).getTime()`). -/
structure SrvTarget where
  id : String
  url : String
  status : Status
  lastCheckMs : Int
  logs : List String
deriving DecidableEq, Repr

/-- What the `Promise.race` of `runTargetCheck` delivers: a result of
`checkTarget`, or a rejection (thrown fault or the timeout). -/
inductive CheckOutcome where
  | ok (r : CheckResult)
  | err (msg : String)
deriving DecidableEq, Repr

/-- `CHECK_TIMEOUT_MS = 5 * 60 * 1000`. -/
def CHECK_TIMEOUT_MS : Nat := 5 * 60 * 1000

/-- The rejection message of the timeout promise. -/
def timeoutMessage : String :=
  "Timeout limit of " ++ toString (CHECK_TIMEOUT_MS / 1000) ++ "s exceeded"

/-- The race of `checkTarget` against the 5-minute deadline: when the
deadline fires first the outcome is the timeout rejection. -/
def raceOutcome (timedOut : Bool) (inner : CheckOutcome) : CheckOutcome :=
  if timedOut then .err timeoutMessage else inner

/-- The status `runTargetCheck` assigns from an outcome: the
success/needsInvite/open/else cascade, `ERROR` on any rejection
(`Option Bool` fields are truthy only as `some true`, like JS
`undefined`/`false`). -/
def classifyOutcome : CheckOutcome → Status
  | .ok r =>
    if r.success then .REGISTERED
    else if r.needsInvite == some true then .NEEDS_INVITE
    else if r.openFlag == some true then .OPEN
    else .CLOSED
  | .err _ => .ERROR

/-- The log lines `runTargetCheck` emits for a target URL and an outcome,
oldest first. -/
def runTargetCheckLogs (url : String) : CheckOutcome → List String
  | .ok r =>
    ["Checking status for " ++ url ++ "..."] ++
    (if r.success then ["SUCCESS: Registration completed!"]
     else if r.needsInvite == some true then
       ["OPEN but requires invitation code or additional info."]
     else if r.openFlag == some true then
       ["WARNING: Registration seems open but failed to automate."]
     else ["Registration appears closed."])
  | .err msg =>
    ["Checking status for " ++ url ++ "...", "Error: " ++ msg]

/-- `STALE_TIMEOUT = 10 * 60 * 1000`. -/
def STALE_TIMEOUT : Int := 10 * 60 * 1000

/-- Whether the scheduler batch probes a target: `REGISTERED` is skipped;
`CHECKING` is skipped unless `now - lastCheck` exceeds the staleness
threshold; everything else is probed. -/
def probeDecision (now : Int) (t : SrvTarget) : Bool :=
  if t.status == .REGISTERED then false
  else if t.status == .CHECKING then
    decide (now - t.lastCheckMs > STALE_TIMEOUT)
  else true

/-- Ids of the targets one scheduler batch probes, in iteration order. -/
def batchProbedIds (now : Int) (ts : List SrvTarget) : List String :=
  (ts.filter (probeDecision now)).map (fun t => t.id)

/-- One scheduler batch over the target list: every probed target gets
the status its guarded run produces (total — no outcome escapes the
per-target catch), skipped targets are untouched. -/
def batchRun (now : Int) (outcomeOf : String → CheckOutcome)
    (ts : List SrvTarget) : List SrvTarget :=
  ts.map (fun t =>
    if probeDecision now t then
      { t with
        status := classifyOutcome (outcomeOf t.id)
        logs := ((runTargetCheckLogs t.url (outcomeOf t.id)).foldl
          (fun l m => logPush m l) t.logs) }
    else t)

/-- The manual `POST /api/targets/:id/check` endpoint: when the id is
found, `runTargetCheck` starts regardless of the target's status, and
its first effect sets the status to `CHECKING`.  `none` = 404. -/
def manualCheckStatus (ts : List SrvTarget) (id : String) : Option Status :=
  match ts.find? (fun t => t.id == id) with
  | some _ => some .CHECKING
  | none => none

/-- `MIN_INTERVAL = 10 * 60 * 1000` (the database-backed variant). -/
def MIN_INTERVAL : Int := 10 * 60 * 1000

/-- `MAX_INTERVAL = 10 * 60 * 1000` (the database-backed variant). -/
def MAX_INTERVAL : Int := 10 * 60 * 1000

/-- The inter-batch delay of `startScheduler`, as a function of the
`Math.random()` draw `r ∈ [0, 1)`:
`Math.floor(Math.random() * (MAX_INTERVAL - MIN_INTERVAL + 1)) + MIN_INTERVAL`. -/
def schedulerDelay (r : ℚ) : ℤ :=
  ⌊r * ((MAX_INTERVAL : ℚ) - (MIN_INTERVAL : ℚ) + 1)⌋ + MIN_INTERVAL

/-! ### Concrete probe scenarios used to evaluate the model -/

/-- A page with nothing on it. -/
def emptyPage : Page :=
  { inputs := [], textareas := 0, labels := [], links := [], html := "",
    url := "", body := "", frames := [], submitBtn := none }

/-- An environment where both page stages are `p`, with the given title,
markup and AI plan, no robots.txt, no fingerprint match, no paths. -/
def mkEnv (p : Page) (title content : String) (plan : Option AIPlan) : ProbeEnv :=
  { robotsTxt := none, navTitle := title, navContent := content,
    forumMatch := none, commonPaths := [], pathResults := [],
    pageAfterPaths := p, registerLinkPage := p, postSubmitBody := "",
    postAiSubmitBody := "", aiPlan := plan, selectorHit := fun _ => false }

/-- Settings without a bypass service. -/
def noBypass : Settings := { flaresolverr_url := "" }

/-- A sample target. -/
def tgtA : TargetCreds :=
  { url := "http://t.example", pseudo := "u", email := "e@x.y", password := "pw" }

/-- Scenario for C1: the post-navigation title is a Cloudflare
interstitial and no bypass is configured. -/
def envBlocked : ProbeEnv := mkEnv emptyPage "Just a moment..." "" none

/-- Scenario for C2: an empty page (no password/email input), so the AI
fallback is engaged, and the planner returns null. -/
def envAiNull : ProbeEnv := mkEnv emptyPage "" "" none

/-- Scenario for C7: the page holds an input named `referral_code`. -/
def pageReferral : Page :=
  { emptyPage with
    inputs := [{ itype := "text", name := "referral_code", placeholder := "" }] }

/-- Probe environment of the C7 scenario. -/
def envReferral : ProbeEnv := mkEnv pageReferral "" "" none

/-- Scenario for C8: the body says registration is closed and the page
shows no form and no invite field. -/
def pageClosed : Page := { emptyPage with body := "registration is closed" }

/-- Probe environment of the C8 scenario. -/
def envClosed : ProbeEnv := mkEnv pageClosed "" "" none

/-- Second C8 scenario: the body says registration is closed, but the
page shows an email input, a password input and a textarea. -/
def pageClosedTA : Page :=
  { emptyPage with
    body := "registration closed",
    textareas := 1,
    inputs := [{ itype := "email", name := "", placeholder := "" },
               { itype := "password", name := "", placeholder := "" }] }

/-- Probe environment of the second C8 scenario. -/
def envClosedTA : ProbeEnv := mkEnv pageClosedTA "" "" none

/-- A target already registered, as the server stores it. -/
def regTargetA : SrvTarget :=
  { id := "1", url := "http://t.example", status := .REGISTERED,
    lastCheckMs := 0, logs := [] }

/-- A target stuck in `CHECKING` since epoch 0. -/
def staleTargetA : SrvTarget :=
  { id := "2", url := "http://t.example", status := .CHECKING,
    lastCheckMs := 0, logs := [] }

/-- Duplicate codes are tolerated only between url-sourced entries. -/
def urlOnlyDup (a b : InviteCode) : Prop :=
  a.code = b.code → a.source = "url" ∧ b.source = "url"

instance : DecidableRel urlOnlyDup := fun a b => by
  unfold urlOnlyDup
  infer_instance

/-! ### Helper lemmas -/

theorem logPush_length_le {l : List String} (e : String) (h : l.length ≤ 50) :
    (logPush e l).length ≤ 50 := by
  unfold logPush
  dsimp only
  split
  · simp only [List.length_dropLast, List.length_cons]
    omega
  · simp only [List.length_cons] at *
    omega

theorem logPush_shape (e : String) (l : List String) :
    logPush e l = e :: l ∨ logPush e l = e :: l.dropLast := by
  unfold logPush
  dsimp only
  split
  · right
    cases l with
    | nil => simp_all
    | cons a as => simp [List.dropLast]
  · left
    rfl

theorem foldl_logPush_le (msgs : List String) :
    ∀ init : List String, init.length ≤ 50 →
      (msgs.foldl (fun acc m => logPush m acc) init).length ≤ 50 := by
  induction msgs with
  | nil => exact fun init h => h
  | cons m ms ih =>
    intro init h
    exact ih (logPush m init) (logPush_length_le m h)

theorem fingerprint_not_mem_preNavSteps (s : Settings) (t : TargetCreds) :
    Step.fingerprint ∉ preNavSteps s t := by
  unfold preNavSteps
  cases h : flareConfigured s <;> simp

theorem aiCall_not_mem_preNavSteps (s : Settings) (t : TargetCreds) :
    Step.aiCall ∉ preNavSteps s t := by
  unfold preNavSteps
  cases h : flareConfigured s <;> simp

theorem aiCall_not_mem_tryPaths : ∀ (ps : List String) (rs : List PathResult),
    Step.aiCall ∉ tryPaths ps rs := by
  intro ps
  induction ps with
  | nil => intro rs; simp [tryPaths]
  | cons p pt ih =>
    intro rs
    cases rs with
    | nil => simpa [tryPaths] using ih []
    | cons r rt =>
      simp only [tryPaths, List.mem_cons, not_or]
      refine ⟨by simp, ?_⟩
      split
      · simp
      · exact ih rt

theorem aiCall_not_mem_linkDiscovery (env : ProbeEnv) :
    Step.aiCall ∉ (linkDiscovery env).2 := by
  unfold linkDiscovery
  dsimp only
  split
  · cases h : findRegisterLink env.pageAfterPaths <;> simp
  · simp

theorem no_fill_preNavSteps (s : Settings) (t : TargetCreds) :
    (preNavSteps s t).all (fun st => !isFillOrSubmit st) = true := by
  unfold preNavSteps
  cases h : flareConfigured s <;> simp [isFillOrSubmit]

theorem no_fill_tryPaths : ∀ (ps : List String) (rs : List PathResult),
    (tryPaths ps rs).all (fun st => !isFillOrSubmit st) = true := by
  intro ps
  induction ps with
  | nil => intro rs; simp [tryPaths]
  | cons p pt ih =>
    intro rs
    cases rs with
    | nil => simpa [tryPaths, isFillOrSubmit] using ih []
    | cons r rt =>
      simp only [tryPaths, List.all_cons, Bool.and_eq_true]
      refine ⟨by simp [isFillOrSubmit], ?_⟩
      split
      · simp
      · exact ih rt

theorem no_fill_linkDiscovery (env : ProbeEnv) :
    (linkDiscovery env).2.all (fun st => !isFillOrSubmit st) = true := by
  unfold linkDiscovery
  dsimp only
  split
  · cases h : findRegisterLink env.pageAfterPaths <;> simp [isFillOrSubmit]
  · simp

/-! ### Claim theorems -/

/-- C10: every log append puts the new entry at the front (newest-first
order preserved, survivors keep their order, the oldest entry is the one
evicted), the log never exceeds 50 entries once it respects that bound,
and any append sequence from the empty log stays within 50 entries. -/
theorem C10_bounded_log (e : String) (l : List String) (msgs : List String) :
    (logPush e l).head? = some e ∧
    (logPush e l = e :: l ∨ logPush e l = e :: l.dropLast) ∧
    (l.length ≤ 50 → (logPush e l).length ≤ 50) ∧
    (msgs.foldl (fun acc m => logPush m acc) []).length ≤ 50 := by
  refine ⟨?_, logPush_shape e l, fun h => logPush_length_le e h, ?_⟩
  · rcases logPush_shape e l with h | h <;> rw [h] <;> rfl
  · exact foldl_logPush_le msgs [] (by simp)

/-- C10 witness: a concrete append on a concrete log. -/
theorem C10_bounded_log_witness :
    (logPush "b" ["a"]).head? = some "b" ∧
    (logPush "b" ["a"] = ["b", "a"] ∨ logPush "b" ["a"] = "b" :: ["a"].dropLast) ∧
    ((["a"] : List String).length ≤ 50 → (logPush "b" ["a"]).length ≤ 50) ∧
    ((["x", "y"] : List String).foldl (fun acc m => logPush m acc) []).length ≤ 50 :=
  C10_bounded_log "b" ["a"] ["x", "y"]

/-- C4 (code evaluated at the failing inputs): with
`MIN_INTERVAL = MAX_INTERVAL = 600000`, the recomputed delay is the same
single constant 600000 ms for every `Math.random()` draw, so the
inter-batch delay never varies. -/
theorem C4_delay_constant (r : ℚ) (h0 : 0 ≤ r) (h1 : r < 1) :
    schedulerDelay r = 600000 := by
  have hone : ((MAX_INTERVAL : ℚ) - (MIN_INTERVAL : ℚ) + 1) = 1 := by
    norm_num [MIN_INTERVAL, MAX_INTERVAL]
  have hfl : ⌊r⌋ = 0 := Int.floor_eq_zero_iff.mpr (Set.mem_Ico.mpr ⟨h0, h1⟩)
  unfold schedulerDelay
  rw [hone, mul_one, hfl]
  norm_num [MIN_INTERVAL]

/-- C4 witness: two distinct draws, one delay. -/
theorem C4_delay_constant_witness :
    (0 : ℚ) ≤ 1 / 4 ∧ (1 / 4 : ℚ) < 1 ∧
    schedulerDelay (1 / 4) = 600000 ∧
    schedulerDelay (1 / 4) = schedulerDelay (3 / 4) :=
  ⟨by norm_num, by norm_num, C4_delay_constant (1 / 4) (by norm_num) (by norm_num),
   by rw [C4_delay_constant (1 / 4) (by norm_num) (by norm_num),
          C4_delay_constant (3 / 4) (by norm_num) (by norm_num)]⟩

/-- C6: a rejection of the race (thrown fault or the 5-minute timeout)
makes the guarded runner assign `ERROR` and append an error log line; the
runner is total on outcomes and the batch keeps processing every target
whatever the outcomes are. -/
theorem C6_guarded_runner (url msg : String) (inner : CheckOutcome)
    (now : ℤ) (outcomeOf : String → CheckOutcome) (ts : List SrvTarget) :
    classifyOutcome (.err msg) = .ERROR ∧
    ("Error: " ++ msg) ∈ runTargetCheckLogs url (.err msg) ∧
    raceOutcome true inner = .err timeoutMessage ∧
    classifyOutcome (raceOutcome true inner) = .ERROR ∧
    ("Error: " ++ timeoutMessage) ∈ runTargetCheckLogs url (raceOutcome true inner) ∧
    (batchRun now outcomeOf ts).length = ts.length := by
  refine ⟨rfl, ?_, rfl, rfl, ?_, ?_⟩
  · simp [runTargetCheckLogs]
  · simp [runTargetCheckLogs, raceOutcome]
  · simp [batchRun]

/-- C3 amended: the scheduled batch never probes or alters a `REGISTERED`
target, but the manual probe-now endpoint starts a check (first effect:
status `CHECKING`) for any stored id, whatever the target's status. -/
theorem C3_registered_scheduling (now : ℤ) (outcomeOf : String → CheckOutcome)
    (ts : List SrvTarget) (t : SrvTarget) (id : String) :
    (t.status = .REGISTERED →
      probeDecision now t = false ∧
      (t ∈ ts → t ∈ batchRun now outcomeOf ts)) ∧
    ((ts.find? (fun x => x.id == id)).isSome →
      manualCheckStatus ts id = some .CHECKING) := by
  constructor
  · intro h
    have hp : probeDecision now t = false := by
      unfold probeDecision
      rw [h]
      rfl
    refine ⟨hp, fun ht => ?_⟩
    unfold batchRun
    exact List.mem_map.mpr ⟨t, ht, by rw [hp]; simp⟩
  · intro h
    unfold manualCheckStatus
    cases hf : ts.find? (fun x => x.id == id) with
    | some x => rfl
    | none => rw [hf] at h; simp at h

/-- C3 counterexample: a `REGISTERED` target hit by the manual probe-now
endpoint transitions to `CHECKING`, so a transition does leave
`REGISTERED`. -/
theorem C3_counterexample :
    regTargetA.status = Status.REGISTERED ∧
    manualCheckStatus [regTargetA] "1" = some Status.CHECKING ∧
    Status.CHECKING ≠ Status.REGISTERED := by
  decide

/-- C3 witness for the amended statement. -/
theorem C3_registered_scheduling_witness :
    regTargetA.status = Status.REGISTERED ∧
    probeDecision 0 regTargetA = false ∧
    regTargetA ∈ batchRun 0 (fun _ => CheckOutcome.err "boom") [regTargetA] ∧
    manualCheckStatus [regTargetA] "1" = some Status.CHECKING := by
  have h := C3_registered_scheduling 0 (fun _ => CheckOutcome.err "boom")
    [regTargetA] regTargetA "1"
  have h1 := h.1 (by decide)
  exact ⟨by decide, h1.1, h1.2 (by decide), h.2 (by decide)⟩

theorem countP_and_singleton (p q : SrvTarget → Bool) :
    ∀ (ts : List SrvTarget) (t : SrvTarget), ts.filter q = [t] →
      ts.countP (fun x => p x && q x) = if p t then 1 else 0 := by
  intro ts
  induction ts with
  | nil => intro t h; simp at h
  | cons x rest ih =>
    intro t h
    rw [List.filter_cons] at h
    by_cases hq : q x = true
    · rw [if_pos hq] at h
      injection h with hx hrest
      subst hx
      rw [List.countP_cons]
      have hzero : rest.countP (fun x => p x && q x) = 0 :=
        List.countP_eq_zero.mpr (fun a ha => by
          have := (List.filter_eq_nil_iff.mp hrest) a ha
          simp_all)
      by_cases hp : p x = true <;> simp [hzero, hq, hp]
    · rw [if_neg hq] at h
      rw [List.countP_cons]
      have hx : (p x && q x) = false := by
        cases hpx : p x <;> simp_all
      rw [ih t h, hx]
      simp

/-- C5: in a scheduled batch, a target in `CHECKING` whose id occurs once
in the list is skipped when `now - lastCheck` is at most 10 minutes and
is probed exactly once when it exceeds 10 minutes. -/
theorem C5_stale_checking (now : ℤ) (t : SrvTarget) (ts : List SrvTarget)
    (hst : t.status = Status.CHECKING)
    (hfil : ts.filter (fun x => x.id == t.id) = [t]) :
    (now - t.lastCheckMs ≤ STALE_TIMEOUT →
      (batchProbedIds now ts).count t.id = 0) ∧
    (STALE_TIMEOUT < now - t.lastCheckMs →
      (batchProbedIds now ts).count t.id = 1) := by
  have key : (batchProbedIds now ts).count t.id =
      if probeDecision now t then 1 else 0 := by
    unfold batchProbedIds
    rw [List.count_eq_countP, List.countP_map, List.countP_filter]
    have hcomm : (fun x => ((fun s => s == t.id) ∘ fun t => t.id) x &&
        probeDecision now x) = (fun x => probeDecision now x && (x.id == t.id)) := by
      funext x
      exact Bool.and_comm _ _
    rw [hcomm]
    exact countP_and_singleton (probeDecision now) (fun x => x.id == t.id) ts t hfil
  have hdec : probeDecision now t =
      decide (now - t.lastCheckMs > STALE_TIMEOUT) := by
    unfold probeDecision
    rw [hst]
    rfl
  constructor
  · intro h
    rw [key, hdec, decide_eq_false (by omega)]
    rfl
  · intro h
    rw [key, hdec, decide_eq_true (by omega)]
    rfl

/-- C5 witness: a target stuck in `CHECKING` since epoch 0, checked at
`now = 1000000` (past the 10-minute threshold), is probed exactly once. -/
theorem C5_stale_checking_witness :
    staleTargetA.status = Status.CHECKING ∧
    [staleTargetA].filter (fun x => x.id == staleTargetA.id) = [staleTargetA] ∧
    STALE_TIMEOUT < 1000000 - staleTargetA.lastCheckMs ∧
    (batchProbedIds 1000000 [staleTargetA]).count staleTargetA.id = 1 :=
  ⟨by decide, by decide, by decide,
   (C5_stale_checking 1000000 staleTargetA [staleTargetA]
     (by decide) (by decide)).2 (by decide)⟩

/-- C1 amended: when the post-navigation page signals an anti-bot
challenge and no bypass is configured, `checkTarget` short-circuits before
fingerprinting and returns `success = false`, `open = false`,
`forumType = "Cloudflare"`; the result carries no `blockedByChallenge`
field, so reading that property yields `undefined`. -/
theorem C1_blocked_short_circuit (t : TargetCreds) (s : Settings)
    (env : ProbeEnv) (h1 : challengeDetected env = true)
    (h2 : flareConfigured s = false) :
    (checkTarget t s env).1 =
      mkRes false (some false) none none "Cloudflare"
        (env.robotsTxt.map analyzeRobotsTxt) [] ∧
    Step.fingerprint ∉ (checkTarget t s env).2 ∧
    getField (checkTarget t s env).1 "blockedByChallenge" = JsVal.undefV := by
  have hc : (challengeDetected env && !flareConfigured s) = true := by
    rw [h1, h2]
    rfl
  unfold checkTarget
  rw [hc]
  simp only [if_true]
  exact ⟨trivial, fingerprint_not_mem_preNavSteps s t, rfl⟩

/-- C1 counterexample: with the title `Just a moment...` and no bypass,
the probe is blocked, yet the result's `blockedByChallenge` property is
`undefined`, not `true`. -/
theorem C1_counterexample :
    challengeDetected envBlocked = true ∧
    flareConfigured noBypass = false ∧
    getField (checkTarget tgtA noBypass envBlocked).1 "blockedByChallenge" ≠
      JsVal.bool true ∧
    getField (checkTarget tgtA noBypass envBlocked).1 "blockedByChallenge" =
      JsVal.undefV := by
  decide

/-- C1 witness for the amended statement. -/
theorem C1_blocked_short_circuit_witness :
    challengeDetected envBlocked = true ∧
    flareConfigured noBypass = false ∧
    ((checkTarget tgtA noBypass envBlocked).1 =
       mkRes false (some false) none none "Cloudflare"
         (envBlocked.robotsTxt.map analyzeRobotsTxt) [] ∧
     Step.fingerprint ∉ (checkTarget tgtA noBypass envBlocked).2 ∧
     getField (checkTarget tgtA noBypass envBlocked).1 "blockedByChallenge" =
       JsVal.undefV) :=
  ⟨by decide, by decide,
   C1_blocked_short_circuit tgtA noBypass envBlocked (by decide) (by decide)⟩

theorem checkTarget_not_blocked (t : TargetCreds) (s : Settings)
    (env : ProbeEnv)
    (hc : (challengeDetected env && !flareConfigured s) = false) :
    checkTarget t s env =
      classifyPage t env
        (match env.forumMatch with
         | some fi => fi.name
         | none => "Unknown")
        (env.robotsTxt.map analyzeRobotsTxt)
        (linkDiscovery env).1
        (preNavSteps s t ++
         (Step.fingerprint ::
           (match env.forumMatch with
            | some fi => tryPaths fi.registrationPaths env.pathResults
            | none => tryPaths (env.commonPaths.take 5) env.pathResults)) ++
         (linkDiscovery env).2) := by
  unfold checkTarget
  rw [hc]
  simp only [Bool.false_eq_true, if_false]

theorem classifyPage_invite (t : TargetCreds) (env : ProbeEnv) (ft : String)
    (ri : Option RobotsInfo) (page : Page) (pre : List Step)
    (hinv : needsInviteOf page = true) :
    classifyPage t env ft ri page pre =
      (mkRes false (some true) (some true) none ft ri
         (detectInvitationCodes page.html page.url),
       pre ++ [Step.extractCodes]) := by
  have hform : hasAnyFormOf page = true := by
    unfold hasAnyFormOf
    rw [hinv]
    simp
  unfold classifyPage
  dsimp only
  rw [hform, hinv]
  simp

theorem classifyPage_closed (t : TargetCreds) (env : ProbeEnv) (ft : String)
    (ri : Option RobotsInfo) (page : Page) (pre : List Step)
    (hform : hasAnyFormOf page = false)
    (hcl : closedPhrase page.body = true) :
    classifyPage t env ft ri page pre =
      (mkRes false (some false) none none ft ri
         (detectInvitationCodes page.html page.url),
       pre ++ [Step.extractCodes]) := by
  unfold classifyPage
  dsimp only
  rw [hform, hcl]
  simp

theorem classifyPage_heuristic (t : TargetCreds) (env : ProbeEnv) (ft : String)
    (ri : Option RobotsInfo) (page : Page) (pre : List Step)
    (hinv : needsInviteOf page = false)
    (hpw : 0 < countPassword page) (hem : 0 < countEmail page)
    (hta : page.textareas = 0) :
    classifyPage t env ft ri page pre =
      heuristicPath t env ft ri
        (detectInvitationCodes page.html page.url) page
        (pre ++ [Step.extractCodes]) := by
  have hform : hasAnyFormOf page = true := by
    simp only [hasAnyFormOf, Bool.or_eq_true, Bool.and_eq_true, decide_eq_true_eq]
    exact Or.inl ⟨hem, hpw⟩
  unfold classifyPage
  dsimp only
  rw [hform, hinv, hta]
  have h3 : (countPassword page > 0 && countEmail page > 0 && 0 == 0) = true := by
    simp
    omega
  rw [h3]
  simp

theorem aiCall_not_mem_fillSteps (t : TargetCreds) (page : Page) :
    Step.aiCall ∉ fillSteps t page := by
  unfold fillSteps
  split_ifs <;> simp

theorem aiCall_not_mem_heuristicPath (t : TargetCreds) (env : ProbeEnv)
    (ft : String) (ri : Option RobotsInfo) (codes : List InviteCode)
    (page : Page) (pre : List Step) (hpre : Step.aiCall ∉ pre) :
    Step.aiCall ∉ (heuristicPath t env ft ri codes page pre).2 := by
  have hfill := aiCall_not_mem_fillSteps t page
  unfold heuristicPath
  dsimp only
  by_cases hcap : captchaPresent page = true
  · rw [if_pos hcap]
    simp [List.mem_append, hpre, hfill]
  · rw [if_neg hcap]
    cases hsb : page.submitBtn with
    | none => simp [List.mem_append, hpre, hfill]
    | some d =>
      cases d with
      | true => simp [List.mem_append, hpre, hfill]
      | false => split_ifs <;> simp [List.mem_append, hpre, hfill]

theorem classifyPage_aiCall_closed (t : TargetCreds) (env : ProbeEnv)
    (ft : String) (ri : Option RobotsInfo) (page : Page) (pre : List Step)
    (hpre : Step.aiCall ∉ pre)
    (hplan : env.aiPlan = none ∨
      ∃ p, env.aiPlan = some p ∧ p.fill_actions = none)
    (hmem : Step.aiCall ∈ (classifyPage t env ft ri page pre).2) :
    classifyOutcome (.ok (classifyPage t env ft ri page pre).1) = .CLOSED := by
  have hpre' : Step.aiCall ∉ pre ++ [Step.extractCodes] := by
    simp [List.mem_append, hpre]
  unfold classifyPage at hmem ⊢
  dsimp only at hmem ⊢
  split_ifs at hmem ⊢ with h1 h2 h3 h4
  · rfl
  · exact absurd hmem hpre'
  · exact absurd hmem
      (aiCall_not_mem_heuristicPath t env ft ri _ page _ hpre')
  · rcases hplan with hp | ⟨p, hp, hfa⟩
    · unfold aiPath
      rw [hp]
      rfl
    · unfold aiPath
      rw [hp]
      dsimp only
      rw [hfa]
      rfl
  · rfl

/-- C2 amended: a probe that reaches the AI fallback, with a planner
reply that is null or lacks `fill_actions`, terminates normally (the
pipeline is total) and its final classification is `CLOSED` — the
fallthrough returns `success = false, open = false`. -/
theorem C2_ai_null_closed (t : TargetCreds) (s : Settings) (env : ProbeEnv)
    (hmem : Step.aiCall ∈ (checkTarget t s env).2)
    (hplan : env.aiPlan = none ∨
      ∃ p, env.aiPlan = some p ∧ p.fill_actions = none) :
    classifyOutcome (.ok (checkTarget t s env).1) = .CLOSED := by
  by_cases hc : (challengeDetected env && !flareConfigured s) = true
  · unfold checkTarget at hmem
    rw [hc] at hmem
    simp only [if_true] at hmem
    exact absurd hmem (aiCall_not_mem_preNavSteps s t)
  · have hc' : (challengeDetected env && !flareConfigured s) = false := by
      cases h : (challengeDetected env && !flareConfigured s)
      · rfl
      · exact absurd h hc
    rw [checkTarget_not_blocked t s env hc'] at hmem ⊢
    apply classifyPage_aiCall_closed _ _ _ _ _ _ _ hplan hmem
    simp only [List.mem_append, not_or]
    refine ⟨⟨aiCall_not_mem_preNavSteps s t, ?_⟩,
      aiCall_not_mem_linkDiscovery env⟩
    cases env.forumMatch <;>
      simp [aiCall_not_mem_tryPaths]

/-- C2 counterexample: on an empty page the AI fallback is engaged; the
planner returning null leaves the final classification `CLOSED`, not
`OPEN`. -/
theorem C2_counterexample :
    Step.aiCall ∈ (checkTarget tgtA noBypass envAiNull).2 ∧
    envAiNull.aiPlan = none ∧
    classifyOutcome (.ok (checkTarget tgtA noBypass envAiNull).1) =
      Status.CLOSED ∧
    Status.CLOSED ≠ Status.OPEN := by
  decide

/-- C2 witness for the amended statement. -/
theorem C2_ai_null_closed_witness :
    Step.aiCall ∈ (checkTarget tgtA noBypass envAiNull).2 ∧
    envAiNull.aiPlan = none ∧
    classifyOutcome (.ok (checkTarget tgtA noBypass envAiNull).1) =
      Status.CLOSED :=
  ⟨by decide, by decide,
   C2_ai_null_closed tgtA noBypass envAiNull (by decide) (Or.inl (by decide))⟩

theorem no_fill_fpSteps (env : ProbeEnv) :
    ((Step.fingerprint ::
        (match env.forumMatch with
         | some fi => tryPaths fi.registrationPaths env.pathResults
         | none => tryPaths (env.commonPaths.take 5) env.pathResults)).all
      (fun st => !isFillOrSubmit st)) = true := by
  cases env.forumMatch <;>
    · simp only [List.all_cons, Bool.and_eq_true]
      exact ⟨by simp [isFillOrSubmit], no_fill_tryPaths _ _⟩

/-- C7: whenever the analyzed page carries an input or label matching the
invitation/code/referral vocabulary, the probe (not already blocked by a
challenge) classifies `NEEDS_INVITE` and its trace holds no form fill and
no submit interaction. -/
theorem C7_invite_short_circuit (t : TargetCreds) (s : Settings)
    (env : ProbeEnv)
    (hc : (challengeDetected env && !flareConfigured s) = false)
    (hinv : needsInviteOf (linkDiscovery env).1 = true) :
    classifyOutcome (.ok (checkTarget t s env).1) = Status.NEEDS_INVITE ∧
    (checkTarget t s env).2.all (fun st => !isFillOrSubmit st) = true := by
  rw [checkTarget_not_blocked t s env hc,
      classifyPage_invite _ _ _ _ _ _ hinv]
  refine ⟨rfl, ?_⟩
  simp only [List.all_append, Bool.and_eq_true]
  exact ⟨⟨⟨no_fill_preNavSteps s t, no_fill_fpSteps env⟩,
    no_fill_linkDiscovery env⟩, by simp [isFillOrSubmit]⟩

/-- C7 witness: a page holding an input named `referral_code`. -/
theorem C7_invite_short_circuit_witness :
    (challengeDetected envReferral && !flareConfigured noBypass) = false ∧
    needsInviteOf (linkDiscovery envReferral).1 = true ∧
    (classifyOutcome (.ok (checkTarget tgtA noBypass envReferral).1) =
       Status.NEEDS_INVITE ∧
     (checkTarget tgtA noBypass envReferral).2.all
       (fun st => !isFillOrSubmit st) = true) :=
  ⟨by decide, by decide,
   C7_invite_short_circuit tgtA noBypass envReferral (by decide) (by decide)⟩

theorem fill_email_mem_heuristicPath (t : TargetCreds) (env : ProbeEnv)
    (ft : String) (ri : Option RobotsInfo) (codes : List InviteCode)
    (page : Page) (pre : List Step) :
    Step.fill "email" t.email ∈ (heuristicPath t env ft ri codes page pre).2 := by
  have hfill : Step.fill "email" t.email ∈ fillSteps t page := by
    unfold fillSteps
    simp
  unfold heuristicPath
  dsimp only
  by_cases hcap : captchaPresent page = true
  · rw [if_pos hcap]
    simp [List.mem_append, hfill]
  · rw [if_neg hcap]
    cases hsb : page.submitBtn with
    | none => simp [List.mem_append, hfill]
    | some d =>
      cases d with
      | true => simp [List.mem_append, hfill]
      | false => split_ifs <;> simp [List.mem_append, hfill]

theorem classifyPage_ai_textarea (t : TargetCreds) (env : ProbeEnv)
    (ft : String) (ri : Option RobotsInfo) (page : Page) (pre : List Step)
    (hinv : needsInviteOf page = false)
    (hpw : 0 < countPassword page) (hem : 0 < countEmail page)
    (hta : 0 < page.textareas) :
    classifyPage t env ft ri page pre =
      aiPath t env ft ri
        (detectInvitationCodes page.html page.url)
        (pre ++ [Step.extractCodes]) := by
  have hform : hasAnyFormOf page = true := by
    simp only [hasAnyFormOf, Bool.or_eq_true, Bool.and_eq_true, decide_eq_true_eq]
    exact Or.inl ⟨hem, hpw⟩
  unfold classifyPage
  dsimp only
  split_ifs with h1 h2 h3 h4
  · rw [hform] at h1
    simp at h1
  · exact absurd h2 (by rw [hinv]; simp)
  · exfalso
    simp only [Bool.and_eq_true, decide_eq_true_eq, beq_iff_eq] at h3
    omega
  · rfl
  · exfalso
    simp only [Bool.or_eq_true, beq_iff_eq, decide_eq_true_eq, not_or] at h4
    omega

theorem aiCall_mem_aiPath (t : TargetCreds) (env : ProbeEnv) (ft : String)
    (ri : Option RobotsInfo) (codes : List InviteCode) (pre : List Step) :
    Step.aiCall ∈ (aiPath t env ft ri codes pre).2 := by
  unfold aiPath
  dsimp only
  cases hp : env.aiPlan with
  | none => simp
  | some plan =>
    cases hfa : plan.fill_actions with
    | none => simp [hfa]
    | some acts =>
      cases hss : plan.submit_selector with
      | none => simp [hfa, hss, List.mem_append]
      | some ss =>
        simp only [hfa, hss]
        split_ifs <;> simp [List.mem_append]

/-- C8: a closed-registration phrase in the body is honoured only without
credible form evidence — no email-plus-password pair and no invitation
field —, in which case the probe classifies `CLOSED` without any fill or
submit; with any such evidence the phrase is ignored and the pipeline
continues: with an invitation field it classifies `NEEDS_INVITE`, with an
email-plus-password form of simple shape (no textarea) it goes on to fill
the form, and with an email-plus-password form plus a textarea it engages
the AI fallback. -/
theorem C8_closed_gated (t : TargetCreds) (s : Settings) (env : ProbeEnv)
    (hc : (challengeDetected env && !flareConfigured s) = false)
    (hcl : closedPhrase (linkDiscovery env).1.body = true) :
    (hasAnyFormOf (linkDiscovery env).1 = false →
      classifyOutcome (.ok (checkTarget t s env).1) = Status.CLOSED ∧
      (checkTarget t s env).2.all (fun st => !isFillOrSubmit st) = true) ∧
    (needsInviteOf (linkDiscovery env).1 = true →
      classifyOutcome (.ok (checkTarget t s env).1) = Status.NEEDS_INVITE) ∧
    (needsInviteOf (linkDiscovery env).1 = false →
     0 < countPassword (linkDiscovery env).1 →
     0 < countEmail (linkDiscovery env).1 →
     (linkDiscovery env).1.textareas = 0 →
      Step.fill "email" t.email ∈ (checkTarget t s env).2) ∧
    (needsInviteOf (linkDiscovery env).1 = false →
     0 < countPassword (linkDiscovery env).1 →
     0 < countEmail (linkDiscovery env).1 →
     0 < (linkDiscovery env).1.textareas →
      Step.aiCall ∈ (checkTarget t s env).2) := by
  rw [checkTarget_not_blocked t s env hc]
  refine ⟨?_, ?_, ?_, ?_⟩
  · intro hform
    rw [classifyPage_closed _ _ _ _ _ _ hform hcl]
    refine ⟨rfl, ?_⟩
    simp only [List.all_append, Bool.and_eq_true]
    exact ⟨⟨⟨no_fill_preNavSteps s t, no_fill_fpSteps env⟩,
      no_fill_linkDiscovery env⟩, by simp [isFillOrSubmit]⟩
  · intro hinv
    rw [classifyPage_invite _ _ _ _ _ _ hinv]
    rfl
  · intro hinv hpw hem hta
    rw [classifyPage_heuristic _ _ _ _ _ _ hinv hpw hem hta]
    exact fill_email_mem_heuristicPath t env _ _ _ _ _
  · intro hinv hpw hem hta
    rw [classifyPage_ai_textarea _ _ _ _ _ _ hinv hpw hem hta]
    exact aiCall_mem_aiPath t env _ _ _ _

/-- C8 witness: a body announcing closed registration on a page without
any form evidence yields `CLOSED` with no fill/submit, while the same
phrase on a page with an email+password pair plus a textarea is ignored
and the AI fallback is engaged. -/
theorem C8_closed_gated_witness :
    ((challengeDetected envClosed && !flareConfigured noBypass) = false ∧
     closedPhrase (linkDiscovery envClosed).1.body = true ∧
     hasAnyFormOf (linkDiscovery envClosed).1 = false ∧
     (classifyOutcome (.ok (checkTarget tgtA noBypass envClosed).1) =
        Status.CLOSED ∧
      (checkTarget tgtA noBypass envClosed).2.all
        (fun st => !isFillOrSubmit st) = true)) ∧
    (closedPhrase (linkDiscovery envClosedTA).1.body = true ∧
     needsInviteOf (linkDiscovery envClosedTA).1 = false ∧
     0 < countPassword (linkDiscovery envClosedTA).1 ∧
     0 < countEmail (linkDiscovery envClosedTA).1 ∧
     0 < (linkDiscovery envClosedTA).1.textareas ∧
     Step.aiCall ∈ (checkTarget tgtA noBypass envClosedTA).2) :=
  ⟨⟨by decide, by decide, by decide,
    (C8_closed_gated tgtA noBypass envClosed (by decide) (by decide)).1
      (by decide)⟩,
   ⟨by decide, by decide, by decide, by decide, by decide,
    (C8_closed_gated tgtA noBypass envClosedTA (by decide)
      (by decide)).2.2.2 (by decide) (by decide) (by decide) (by decide)⟩⟩

theorem urlPhase_sources (url : String) :
    ∀ e ∈ urlPhase url, e.source = "url" := by
  unfold urlPhase
  suffices h : ∀ (pats : List (List Tok)) (acc : List InviteCode),
      (∀ e ∈ acc, e.source = "url") →
      ∀ e ∈ pats.foldl
        (fun acc pat =>
          match reFirstCapture pat url with
          | some c => acc ++ [{ source := "url", code := c }]
          | none => acc) acc, e.source = "url" by
    exact h urlPatterns [] (by simp)
  intro pats
  induction pats with
  | nil => exact fun acc h => h
  | cons p ps ih =>
    intro acc hacc
    apply ih
    intro e he
    dsimp only at he
    cases hcap : reFirstCapture p url with
    | none => rw [hcap] at he; exact hacc e he
    | some c =>
      rw [hcap] at he
      rcases List.mem_append.mp he with h | h
      · exact hacc e h
      · simp at h
        rw [h]

theorem pairwise_urlOnlyDup_of_all_url {l : List InviteCode}
    (h : ∀ e ∈ l, e.source = "url") : l.Pairwise urlOnlyDup := by
  induction l with
  | nil => exact List.Pairwise.nil
  | cons a t ih =>
    refine List.pairwise_cons.mpr ⟨fun b hb _ => ?_, ih (fun e he => h e (by simp [he]))⟩
    exact ⟨h a (by simp), h b (by simp [hb])⟩

theorem pagePhase_pairwise (caps : List String) :
    ∀ acc : List InviteCode, acc.Pairwise urlOnlyDup →
      (pagePhase caps acc).Pairwise urlOnlyDup := by
  unfold pagePhase
  induction caps with
  | nil => exact fun acc h => h
  | cons c cs ih =>
    intro acc hacc
    apply ih
    dsimp only
    by_cases he : c.isEmpty
    · rw [if_pos he]
      exact hacc
    · rw [if_neg he]
      by_cases hdup : acc.any (fun e => e.code == c) = true
      · rw [if_pos hdup]
        exact hacc
      · rw [if_neg hdup]
        refine List.pairwise_append.mpr ⟨hacc, by simp, ?_⟩
        intro a ha b hb hcode
        exfalso
        simp only [List.mem_singleton] at hb
        rw [hb] at hcode
        have : a.code ≠ c := by
          intro hcontra
          apply hdup
          rw [List.any_eq_true]
          exact ⟨a, ha, by simp [hcontra]⟩
        exact this hcode

/-- C9 amended: extraction deduplicates a page-sourced code against every
code already collected (from URL or page), so two entries may share a code
value only when both are url-sourced; url-pattern matches themselves are
pushed without deduplication. -/
theorem C9_dedup_page_only (html url : String) :
    (detectInvitationCodes html url).Pairwise urlOnlyDup := by
  unfold detectInvitationCodes
  suffices h : ∀ (pats : List (List Tok)) (acc : List InviteCode),
      acc.Pairwise urlOnlyDup →
      (pats.foldl (fun acc pat => pagePhase (reExecAll pat html) acc)
        acc).Pairwise urlOnlyDup by
    exact h htmlPatterns (urlPhase url)
      (pairwise_urlOnlyDup_of_all_url (urlPhase_sources url))
  intro pats
  induction pats with
  | nil => exact fun acc h => h
  | cons p ps ih =>
    intro acc hacc
    exact ih _ (pagePhase_pairwise _ _ hacc)

/-- C9 counterexample: a URL matching both the `ref=` and the `code=`
patterns with the same value yields two entries with the same code, so
the returned list is not duplicate-free. -/
theorem C9_counterexample :
    detectInvitationCodes "" "?code=AB1&ref=AB1" =
      [{ source := "url", code := "AB1" }, { source := "url", code := "AB1" }] ∧
    ¬ (detectInvitationCodes "" "?code=AB1&ref=AB1").Pairwise
        (fun a b => a.code ≠ b.code) := by
  constructor
  · decide
  · intro h
    rw [show detectInvitationCodes "" "?code=AB1&ref=AB1" =
        [{ source := "url", code := "AB1" }, { source := "url", code := "AB1" }]
      from by decide] at h
    exact (List.pairwise_cons.mp h).1 _ (by simp) rfl

end Inscripflow
